import Mathlib

/-!
Verification development for the video controller of a video-sharing
backend (`src/controllers/video.controller.js`).  The controller is a
flat sequence of validate → query → mutate handlers over a document
store (videos, users, likes, subscriptions) and an asset store
(upload-by-path / delete-by-identifier).  We embed the store as an
explicit state record and each handler as a pure function from state
and request parameters to a result together with the new state; where
a claim is about event ordering the handler also emits a trace of
external-effect events.

Modelling conventions, matching the JavaScript source:
* document identifiers are strings; `isValidObjectId` is the 24-hex-digit
  check performed by the database driver;
* a JavaScript array is always truthy, so the source's `if(!video)`
  emptiness test on an aggregation result never fires; this is embedded
  by `jsArrayFalsy`, which is constantly `false`;
* `field?.trim() === ""` is `false` when `field` is `undefined`; this is
  embedded by `jsBlank`;
* the `!x` truthiness test on an optional string is `true` exactly when
  the string is absent or empty; this is embedded by `jsTruthy`;
* the document mapper strips `undefined` keys from `$set` updates, so a
  `$set` with an absent title/description leaves that field unchanged,
  and an `undefined` value inside a replaced embedded document simply
  removes that key (hence `MediaRef.url : Option String`);
* a caller identity is `Option String`; an absent identity serialises to
  null, which is a member of no set of real identifiers.
-/

namespace VideoApp

/-- Hex-digit test used by the identifier validity check. -/
def isHexChar (c : Char) : Bool :=
  c.isDigit || (('a' ≤ c) && (c ≤ 'f')) || (('A' ≤ c) && (c ≤ 'F'))

/-- `mongoose.isValidObjectId`: a 24-character hexadecimal string
(checked over the character list of the string). -/
def isValidObjectId (s : String) : Bool :=
  s.data.length == 24 && s.data.all isHexChar

/-- A JavaScript array is always truthy, so the source's `if(!video)`
test on an aggregation result array can never take the error branch. -/
def jsArrayFalsy {α : Type} (_ : List α) : Bool := false

/-- Whitespace trimming of JavaScript's `String.prototype.trim`,
over the character list of the string. -/
def trimChars (l : List Char) : List Char :=
  ((l.dropWhile Char.isWhitespace).reverse.dropWhile Char.isWhitespace).reverse

/-- The source's blank-field test `field?.trim() === ""`: `undefined`
short-circuits the optional chain, and `undefined === ""` is `false`,
so an absent field does NOT count as blank. -/
def jsBlank (f : Option String) : Bool :=
  match f with
  | none => false
  | some s => trimChars s.data == []

/-- JavaScript truthiness of an optional string (`!x` negated):
absent and empty strings are falsy. -/
def jsTruthy (f : Option String) : Bool :=
  match f with
  | none => false
  | some s => s != ""

/-- A stored media reference: URL plus asset-store identifier.  The URL
is optional because an `undefined` value written through a `$set` of the
embedded document removes the key. -/
structure MediaRef where
  url : Option String
  public_id : String
deriving Repr, DecidableEq

/-- A video document. -/
structure Video where
  id : String
  title : String
  description : String
  duration : Nat
  videoFile : MediaRef
  thumbnail : MediaRef
  owner : String
  views : Nat
  isPublished : Bool
  createdAt : Nat
deriving Repr, DecidableEq

/-- A user document (only the fields this controller touches). -/
structure User where
  id : String
  username : String
  watchHistory : List String
deriving Repr, DecidableEq

/-- A like document: existence-only (video, liking user) pair. -/
structure Like where
  video : String
  likedBy : String
deriving Repr, DecidableEq

/-- A subscription document: existence-only (channel, subscriber) pair. -/
structure Subscription where
  channel : String
  subscriber : String
deriving Repr, DecidableEq

/-- The document store plus the asset store (a set of asset identifiers). -/
structure State where
  videos : List Video
  users : List User
  likes : List Like
  subs : List Subscription
  assets : List String
deriving Repr, DecidableEq

/-- Error taxonomy of the handlers (`ApiError` throw sites, classified as
in the specification: malformed/missing input → `InvalidArgument`,
ownership violation → `Forbidden`, absent record → `NotFound`, asset
store failure → `UpstreamFailure`, post-write verification failure or a
null dereference → `Internal`). -/
inductive ApiErr where
  | InvalidArgument
  | Forbidden
  | NotFound
  | UpstreamFailure
  | Internal
deriving Repr, DecidableEq

/-- External-effect events, used where a claim is about ordering. -/
inductive Ev where
  | uploadAsset (path : String)
  | deleteAsset (publicId : String)
  | dbWrite (videoId : String)
deriving Repr, DecidableEq

/-- Result of a successful asset-store upload. -/
structure UploadResult where
  url : String
  public_id : String
  duration : Nat
deriving Repr, DecidableEq

/-- `Video.findById` / `$match` on `_id`. -/
def findVideo (vs : List Video) (id : String) : Option Video :=
  vs.find? (fun v => v.id == id)

/-- `User.findById`. -/
def findUser (us : List User) (id : String) : Option User :=
  us.find? (fun u => u.id == id)

/-- `Video.findByIdAndUpdate`: apply `f` to the documents matching `id`. -/
def modifyVideo (vs : List Video) (id : String) (f : Video → Video) : List Video :=
  vs.map (fun v => if v.id == id then f v else v)

/-- Replace the user document matching `id`. -/
def updateUser (us : List User) (id : String) (u2 : User) : List User :=
  us.map (fun u => if u.id == id then u2 else u)

/-- `Video.findByIdAndDelete`: remove the documents matching `id`. -/
def removeVideo (vs : List Video) (id : String) : List Video :=
  vs.filter (fun v => v.id != id)

/-- `deleteFromCloudinary`: remove an asset identifier from the store. -/
def deleteAssetStore (as : List String) (pid : String) : List String :=
  as.filter (fun a => a != pid)

/-- Owner sub-document produced by the `getVideoById` aggregation's
`$lookup` into users (with nested subscription lookup). -/
structure OwnerInfo where
  id : String
  username : String
  subscribersCount : Nat
  isSubscribed : Bool
deriving Repr, DecidableEq

/-- Projected document produced by the `getVideoById` aggregation. -/
structure AggVideo where
  id : String
  title : String
  description : String
  views : Nat
  createdAt : Nat
  isPublished : Bool
  duration : Nat
  ownerInfo : Option OwnerInfo
  likesCount : Nat
  isLiked : Bool
deriving Repr, DecidableEq

/-- Per-document stage of the `getVideoById` aggregation: `$lookup` of
likes (`likesCount`, `isLiked` by `$in` of the caller in
`likes.likedBy`); `$lookup` of the owner user enriched with its
subscriptions (`subscribersCount`, `isSubscribed` by `$in` of the caller
in `subscribers.subscriber`), `$first` of that lookup; projection.  An
absent caller serialises to null, which equals no stored identifier, so
both `$in` tests are `false`. -/
def aggOfVideo (σ : State) (caller : Option String) (v : Video) : AggVideo :=
  let likes := σ.likes.filter (fun l => l.video == v.id)
  let ownerInfo := (findUser σ.users v.owner).map (fun u =>
    let subscribers := σ.subs.filter (fun s => s.channel == u.id)
    { id := u.id
      username := u.username
      subscribersCount := subscribers.length
      isSubscribed := subscribers.any (fun s => caller == some s.subscriber) })
  { id := v.id
    title := v.title
    description := v.description
    views := v.views
    createdAt := v.createdAt
    isPublished := v.isPublished
    duration := v.duration
    ownerInfo := ownerInfo
    likesCount := likes.length
    isLiked := likes.any (fun l => caller == some l.likedBy) }

/-- The aggregation pipeline of `getVideoById`: `$match` on `_id`
followed by the per-document stage `aggOfVideo`. -/
def aggVideoById (σ : State) (videoId : String) (caller : Option String) :
    List AggVideo :=
  (σ.videos.filter (fun v => v.id == videoId)).map (aggOfVideo σ caller)

/-- `getVideoById`: validate the identifier; run the aggregation; the
source then tests `if(!video)` on the result ARRAY, which is always
truthy, so the 404 branch is unreachable (`jsArrayFalsy`); increment the
view counter; load the caller's user document and append the video
identifier to its watch history (a null user — absent caller — is a
TypeError in the source, embedded as `Internal`).  Returns the
aggregation result and the updated watch history. -/
def getVideoById (σ : State) (videoId : String) (caller : Option String) :
    Except ApiErr (List AggVideo × List String) × State :=
  if !(isValidObjectId videoId) then (.error .InvalidArgument, σ)
  else
    let video := aggVideoById σ videoId caller
    if jsArrayFalsy video then (.error .NotFound, σ)
    else
      let σ1 := { σ with
        videos := modifyVideo σ.videos videoId (fun v => { v with views := v.views + 1 }) }
      match caller.bind (fun c => findUser σ1.users c) with
      | none => (.error .Internal, σ1)
      | some u =>
        let u2 := { u with watchHistory := u.watchHistory ++ [videoId] }
        let σ2 := { σ1 with users := updateUser σ1.users u.id u2 }
        (.ok (video, u2.watchHistory), σ2)

/-- Sort key for the feed's `$sort {[sortBy]: ...}` stage; an unknown
field name is missing from every document, so all keys compare equal. -/
def sortKey (f : String) (v : Video) : Nat :=
  if f == "views" then v.views
  else if f == "createdAt" then v.createdAt
  else if f == "duration" then v.duration
  else 0

/-- `$sort` descending on a numeric key (stable insertion sort). -/
def sortVideosDesc (key : Video → Nat) (l : List Video) : List Video :=
  l.insertionSort (fun a b => key b ≤ key a)

/-- `$sort` ascending on a numeric key. -/
def sortVideosAsc (key : Video → Nat) (l : List Video) : List Video :=
  l.insertionSort (fun a b => key a ≤ key b)

/-- Tail of the feed pipeline shared by all `getAllVideos` calls:
`$match {isPublished: true}`; `$sort` (requested field/direction, else
`createdAt` descending); `$lookup`+`$unwind` of the owner (dropping
videos whose owner user does not exist); paginated execution. -/
def runFeedPipeline (σ : State) (l : List Video) (sortBy sortType : Option String)
    (page limit : Nat) : List Video :=
  let published := l.filter (fun v => v.isPublished)
  let sorted :=
    match sortBy, sortType with
    | some f, some t =>
      if t == "asc" then sortVideosAsc (sortKey f) published
      else sortVideosDesc (sortKey f) published
    | _, _ => sortVideosDesc (fun v => v.createdAt) published
  let joined := sorted.filter (fun v => (findUser σ.users v.owner).isSome)
  (joined.drop ((page - 1) * limit)).take limit

/-- `getAllVideos`: optional full-text `$search` stage (the Atlas text
index is external; its match predicate is collaborator-injected as
`search`), optional owner filter after identifier validation, then the
shared pipeline tail.  Read-only: no state is returned. -/
def getAllVideos (σ : State) (search : String → Video → Bool)
    (query userId sortBy sortType : Option String) (page limit : Nat) :
    Except ApiErr (List Video) :=
  let l0 :=
    match query with
    | some q => σ.videos.filter (search q)
    | none => σ.videos
  match userId with
  | some uid =>
    if isValidObjectId uid then
      .ok (runFeedPipeline σ (l0.filter (fun v => v.owner == uid)) sortBy sortType page limit)
    else .error .InvalidArgument
  | none => .ok (runFeedPipeline σ l0 sortBy sortType page limit)

/-- `publishAVideo`: the blank-field check (`jsBlank` — note an absent
field passes it); missing local paths → `InvalidArgument`; both assets
uploaded BEFORE either result is checked; then the record is created.
The video model file is not part of the sources; its required-field
validation is `Modelled from the spec:` §3/§4.2 require title,
description and owner on creation, so `Video.create` with any of them
absent fails (embedded as `Internal`, no record written).  On success
the record is re-fetched; a miss is `Internal`. -/
def publishAVideo (σ : State) (caller : Option String)
    (title description videoFileLocalPath thumbnailLocalPath : Option String)
    (upload : String → Option UploadResult) (newId : String) (now : Nat) :
    Except ApiErr Video × State × List Ev :=
  if jsBlank title || jsBlank description then (.error .InvalidArgument, σ, [])
  else
    match videoFileLocalPath, thumbnailLocalPath with
    | none, _ => (.error .InvalidArgument, σ, [])
    | some _, none => (.error .InvalidArgument, σ, [])
    | some vp, some tp =>
      let vres := upload vp
      let tres := upload tp
      let σu := { σ with
        assets :=
          (match tres with | some t => [t.public_id] | none => []) ++
            (match vres with | some v => [v.public_id] | none => []) ++ σ.assets }
      let tr := [Ev.uploadAsset vp, Ev.uploadAsset tp]
      match vres with
      | none => (.error .UpstreamFailure, σu, tr)
      | some vfile =>
        match tres with
        | none => (.error .UpstreamFailure, σu, tr)
        | some thumb =>
          match title, description, caller with
          | some t, some d, some ownerId =>
            let newVideo : Video := {
              id := newId
              title := t
              description := d
              duration := vfile.duration
              videoFile := { url := some vfile.url, public_id := vfile.public_id }
              thumbnail := { url := some thumb.url, public_id := thumb.public_id }
              owner := ownerId
              views := 0
              isPublished := true
              createdAt := now }
            let σ2 := { σu with videos := σu.videos ++ [newVideo] }
            match findVideo σ2.videos newId with
            | some created => (.ok created, σ2, tr ++ [Ev.dbWrite newId])
            | none => (.error .Internal, σ2, tr ++ [Ev.dbWrite newId])
          | _, _, _ => (.error .Internal, σu, tr)

/-- The `$set` document of `updateVideo`: `title`/`description` keys are
stripped when `undefined` (field unchanged); the `thumbnail` embedded
document is replaced wholesale by `thumb`. -/
def applyVideoSet (σ : State) (videoId : String) (title description : Option String)
    (thumb : MediaRef) : State :=
  { σ with
    videos := modifyVideo σ.videos videoId (fun v =>
      { v with
        title := title.getD v.title
        description := description.getD v.description
        thumbnail := thumb }) }

/-- The tail of `updateVideo`: re-fetch after `findByIdAndUpdate`
(`{new:true}`); a null result is the 500 `Internal` throw. -/
def finishUpdate (σ2 : State) (videoId : String) (tr : List Ev) :
    Except ApiErr Video × State × List Ev :=
  match findVideo σ2.videos videoId with
  | some updated => (.ok updated, σ2, tr)
  | none => (.error .Internal, σ2, tr)

/-- The no-new-thumbnail branch of `updateVideo`.  The source builds
`thumbnail = { url: oldImageUrl, public_id: currentVideo.thumbnail.public_id }`
but `oldImageUrl` is only ever assigned inside the other branch, so here
it is `undefined` and the written embedded document has no `url` key
(`url := none`), despite the adjacent comment "or old url will be set
again". -/
def updateVideoNoThumb (σ : State) (cv : Video) (videoId : String)
    (title description : Option String) :
    Except ApiErr Video × State × List Ev :=
  let thumb : MediaRef := { url := none, public_id := cv.thumbnail.public_id }
  finishUpdate (applyVideoSet σ videoId title description thumb) videoId
    [Ev.dbWrite videoId]

/-- `updateVideo`: validate the identifier; ownership check by
`currentVideo?.owner.toString() != req.user?._id` (an absent record
yields `undefined`, so for any present caller the comparison fails and
the `Forbidden`-shaped error is thrown); at-least-one-field check by
JavaScript truthiness; then, when a new thumbnail path is (truthily)
present: re-read the record, upload the new asset, and — in the
source's order — DELETE the old thumbnail asset BEFORE the
`findByIdAndUpdate` write; otherwise write with the old `public_id` and
an undefined url (`updateVideoNoThumb`).  A null `currentVideo`
dereference past the checks (absent record AND absent caller) is a
TypeError, embedded as `Internal`. -/
def updateVideo (σ : State) (videoId : String) (caller : Option String)
    (title description thumbnailLocalPath : Option String)
    (upload : String → Option UploadResult) :
    Except ApiErr Video × State × List Ev :=
  if !(isValidObjectId videoId) then (.error .InvalidArgument, σ, [])
  else
    let currentVideo := findVideo σ.videos videoId
    if (currentVideo.map (fun v => v.owner)) ≠ caller then (.error .Forbidden, σ, [])
    else
      if !(jsTruthy title) && !(jsTruthy description) && !(jsTruthy thumbnailLocalPath) then
        (.error .InvalidArgument, σ, [])
      else
        match currentVideo with
        | none => (.error .Internal, σ, [])
        | some cv =>
          match thumbnailLocalPath with
          | none => updateVideoNoThumb σ cv videoId title description
          | some path =>
            if path == "" then updateVideoNoThumb σ cv videoId title description
            else
              let oldThumb := cv.thumbnail
              match upload path with
              | none => (.error .UpstreamFailure, σ, [Ev.uploadAsset path])
              | some t =>
                let σ1 := { σ with
                  assets :=
                    deleteAssetStore (t.public_id :: σ.assets) oldThumb.public_id }
                let newThumb : MediaRef := { url := some t.url, public_id := t.public_id }
                finishUpdate (applyVideoSet σ1 videoId title description newThumb) videoId
                  [Ev.uploadAsset path, Ev.deleteAsset oldThumb.public_id,
                   Ev.dbWrite videoId]

/-- `deleteVideo`: validate; same ownership comparison as `updateVideo`;
`$pull` the identifier from every user's watch history; delete the
record (a null delete result is the source's 400 "Failed to delete"
throw, embedded as `NotFound`); delete both assets from the asset
store. -/
def deleteVideo (σ : State) (videoId : String) (caller : Option String) :
    Except ApiErr Video × State :=
  if !(isValidObjectId videoId) then (.error .InvalidArgument, σ)
  else
    let currentVideo := findVideo σ.videos videoId
    if (currentVideo.map (fun v => v.owner)) ≠ caller then (.error .Forbidden, σ)
    else
      let σ1 := { σ with
        users := σ.users.map (fun u =>
          { u with watchHistory := u.watchHistory.filter (fun h => h != videoId) }) }
      match findVideo σ1.videos videoId with
      | none => (.error .NotFound, σ1)
      | some deleted =>
        let σ2 := { σ1 with videos := removeVideo σ1.videos videoId }
        let σ3 := { σ2 with
          assets :=
            deleteAssetStore (deleteAssetStore σ2.assets deleted.videoFile.public_id)
              deleted.thumbnail.public_id }
        (.ok deleted, σ3)

/-- `togglePublishStatus`: validate; existence check (`NotFound`);
ownership check (`Forbidden`); flip the flag with `findByIdAndUpdate`
and return the new boolean (`{new:true}`). -/
def togglePublishStatus (σ : State) (videoId : String) (caller : Option String) :
    Except ApiErr Bool × State :=
  if !(isValidObjectId videoId) then (.error .InvalidArgument, σ)
  else
    match findVideo σ.videos videoId with
    | none => (.error .NotFound, σ)
    | some v =>
      if (some v.owner) ≠ caller then (.error .Forbidden, σ)
      else
        let σ1 := { σ with
          videos := modifyVideo σ.videos videoId
            (fun w => { w with isPublished := !v.isPublished }) }
        (.ok (!v.isPublished), σ1)

/-- State reached after `n` sequential `getVideoById` calls. -/
def iterGetState (videoId : String) (caller : Option String) : Nat → State → State
  | 0, σ => σ
  | n + 1, σ => iterGetState videoId caller n (getVideoById σ videoId caller).2

/-! ### Concrete fixtures (used by witnesses and counterexamples) -/

/-- A published video owned by user `cccc…c`. -/
def vidFix : Video :=
  { id := "aaaaaaaaaaaaaaaaaaaaaaaa"
    title := "T0"
    description := "D0"
    duration := 42
    videoFile := { url := some "https://cdn/video0", public_id := "vf0" }
    thumbnail := { url := some "https://cdn/thumb0", public_id := "th0" }
    owner := "cccccccccccccccccccccccc"
    views := 5
    isPublished := true
    createdAt := 100 }

/-- The owner's user document. -/
def ownerFix : User :=
  { id := "cccccccccccccccccccccccc"
    username := "owner"
    watchHistory := ["eeeeeeeeeeeeeeeeeeeeeeee"] }

/-- A second user whose watch history mentions the video. -/
def watcherFix : User :=
  { id := "dddddddddddddddddddddddd"
    username := "watcher"
    watchHistory := ["aaaaaaaaaaaaaaaaaaaaaaaa", "eeeeeeeeeeeeeeeeeeeeeeee",
                     "aaaaaaaaaaaaaaaaaaaaaaaa"] }

/-- A concrete store holding the video, both users, one like and one
subscription. -/
def stFix : State :=
  { videos := [vidFix]
    users := [ownerFix, watcherFix]
    likes := [{ video := "aaaaaaaaaaaaaaaaaaaaaaaa",
                likedBy := "dddddddddddddddddddddddd" }]
    subs := [{ channel := "cccccccccccccccccccccccc",
               subscriber := "dddddddddddddddddddddddd" }]
    assets := ["vf0", "th0"] }

/-- An asset-store stub whose uploads always succeed. -/
def uploadOk : String → Option UploadResult :=
  fun p => some { url := "https://cdn/new/" ++ p, public_id := "pid-" ++ p, duration := 7 }

/-! ### General lemmas about the store operations -/

theorem findVideo_id {vs : List Video} {id : String} {v : Video}
    (h : findVideo vs id = some v) : v.id = id := by
  simp only [findVideo] at h
  simpa using List.find?_some h

theorem findUser_id {us : List User} {id : String} {u : User}
    (h : findUser us id = some u) : u.id = id := by
  simp only [findUser] at h
  simpa using List.find?_some h

theorem findVideo_modifyVideo (vs : List Video) (id : String) (f : Video → Video)
    (hid : ∀ v, (f v).id = v.id) :
    findVideo (modifyVideo vs id f) id = (findVideo vs id).map f := by
  induction vs with
  | nil => rfl
  | cons v vs ih =>
    simp only [findVideo, modifyVideo, List.map_cons] at *
    by_cases h : v.id = id
    · rw [if_pos (by simpa using h)]
      rw [List.find?_cons_of_pos _ (by simpa [hid v] using h),
        List.find?_cons_of_pos _ (by simpa using h)]
      rfl
    · rw [if_neg (by simpa using h)]
      rw [List.find?_cons_of_neg _ (by simpa using h),
        List.find?_cons_of_neg _ (by simpa using h)]
      exact ih

theorem findUser_updateUser (us : List User) (uid : String) (u u2 : User)
    (hu : findUser us uid = some u) (h2 : u2.id = uid) :
    findUser (updateUser us uid u2) uid = some u2 := by
  induction us with
  | nil => simp [findUser] at hu
  | cons w us ih =>
    simp only [findUser, updateUser, List.map_cons] at *
    by_cases h : w.id = uid
    · rw [if_pos (by simpa using h)]
      exact List.find?_cons_of_pos _ (by simpa using h2)
    · rw [if_neg (by simpa using h)]
      rw [List.find?_cons_of_neg _ (by simpa using h)]
      rw [List.find?_cons_of_neg _ (by simpa using h)] at hu
      exact ih hu

/-! ### C6: non-owner mutation attempts -/

/-- C6: for every stored video and every caller different from the
video's owner, `updateVideo`, `deleteVideo` and `togglePublishStatus`
all fail with the `Forbidden` error and return the store (videos,
users, likes, subscriptions and asset store alike) unchanged, emitting
no external effects. -/
theorem nonOwner_mutations_rejected (σ : State) (vid : String) (v : Video)
    (caller : Option String) (t d th : Option String)
    (up : String → Option UploadResult)
    (hvalid : isValidObjectId vid = true)
    (hfind : findVideo σ.videos vid = some v)
    (hne : caller ≠ some v.owner) :
    updateVideo σ vid caller t d th up = (.error .Forbidden, σ, []) ∧
    deleteVideo σ vid caller = (.error .Forbidden, σ) ∧
    togglePublishStatus σ vid caller = (.error .Forbidden, σ) := by
  have hne2 : some v.owner ≠ caller := Ne.symm hne
  refine ⟨?_, ?_, ?_⟩
  · simp [updateVideo, hvalid, hfind, hne2]
  · simp [deleteVideo, hvalid, hfind, hne2]
  · simp [togglePublishStatus, hvalid, hfind, hne2]

/-- Witness for C6 at a concrete store: a caller distinct from the
owner is rejected by all three mutating operations. -/
theorem nonOwner_mutations_rejected_witness :
    updateVideo stFix "aaaaaaaaaaaaaaaaaaaaaaaa" (some "dddddddddddddddddddddddd")
        (some "T") none none (fun _ => none) =
      (.error .Forbidden, stFix, []) ∧
    deleteVideo stFix "aaaaaaaaaaaaaaaaaaaaaaaa" (some "dddddddddddddddddddddddd") =
      (.error .Forbidden, stFix) ∧
    togglePublishStatus stFix "aaaaaaaaaaaaaaaaaaaaaaaa"
        (some "dddddddddddddddddddddddd") =
      (.error .Forbidden, stFix) :=
  nonOwner_mutations_rejected stFix "aaaaaaaaaaaaaaaaaaaaaaaa" vidFix
    (some "dddddddddddddddddddddddd") (some "T") none none (fun _ => none)
    (by decide) rfl (by decide)

/-! ### C9: toggling publish status twice -/

/-- C9: for an existing video and its owner as caller, each call of
`togglePublishStatus` returns exactly the new value of the published
flag, and two calls in succession return the flag to its original
value (the stored record is exactly the original one again). -/
theorem togglePublish_involutive (σ : State) (vid : String) (v : Video)
    (hvalid : isValidObjectId vid = true)
    (hfind : findVideo σ.videos vid = some v) :
    (togglePublishStatus σ vid (some v.owner)).1 = .ok (!v.isPublished) ∧
    findVideo ((togglePublishStatus σ vid (some v.owner)).2).videos vid =
      some { v with isPublished := !v.isPublished } ∧
    (togglePublishStatus ((togglePublishStatus σ vid (some v.owner)).2) vid
      (some v.owner)).1 = .ok v.isPublished ∧
    findVideo ((togglePublishStatus ((togglePublishStatus σ vid (some v.owner)).2)
      vid (some v.owner)).2).videos vid = some v := by
  have e1 : togglePublishStatus σ vid (some v.owner) =
      (.ok (!v.isPublished),
        { σ with
          videos := modifyVideo σ.videos vid
              (fun w => { w with isPublished := !v.isPublished }) }) := by
    simp [togglePublishStatus, hvalid, hfind]
  have hf1 : findVideo (modifyVideo σ.videos vid
      (fun w => { w with isPublished := !v.isPublished })) vid =
      some { v with isPublished := !v.isPublished } := by
    rw [findVideo_modifyVideo _ _ _ (by intro w; rfl), hfind]
    rfl
  have e2 : togglePublishStatus
      ({ σ with
         videos := modifyVideo σ.videos vid
             (fun w => { w with isPublished := !v.isPublished }) } : State) vid
      (some v.owner) =
      (.ok v.isPublished,
        { σ with
          videos := modifyVideo (modifyVideo σ.videos vid
              (fun w => { w with isPublished := !v.isPublished })) vid
              (fun w => { w with isPublished := v.isPublished }) }) := by
    simp [togglePublishStatus, hvalid, hf1, Bool.not_not]
  have hf2 : findVideo (modifyVideo (modifyVideo σ.videos vid
      (fun w => { w with isPublished := !v.isPublished })) vid
      (fun w => { w with isPublished := v.isPublished })) vid = some v := by
    rw [findVideo_modifyVideo _ _ _ (by intro w; rfl), hf1]
    rfl
  rw [e1]
  exact ⟨rfl, hf1, by rw [e2], by rw [e2]; exact hf2⟩

/-- Witness for C9: toggling `vidFix` (published) twice by its owner
unpublishes and republishes it, each call returning the new flag. -/
theorem togglePublish_involutive_witness :
    (togglePublishStatus stFix "aaaaaaaaaaaaaaaaaaaaaaaa"
        (some vidFix.owner)).1 = .ok (!vidFix.isPublished) ∧
    findVideo ((togglePublishStatus stFix "aaaaaaaaaaaaaaaaaaaaaaaa"
        (some vidFix.owner)).2).videos "aaaaaaaaaaaaaaaaaaaaaaaa" =
      some { vidFix with isPublished := !vidFix.isPublished } ∧
    (togglePublishStatus ((togglePublishStatus stFix "aaaaaaaaaaaaaaaaaaaaaaaa"
        (some vidFix.owner)).2) "aaaaaaaaaaaaaaaaaaaaaaaa"
        (some vidFix.owner)).1 = .ok vidFix.isPublished ∧
    findVideo ((togglePublishStatus ((togglePublishStatus stFix
        "aaaaaaaaaaaaaaaaaaaaaaaa" (some vidFix.owner)).2)
        "aaaaaaaaaaaaaaaaaaaaaaaa" (some vidFix.owner)).2).videos
      "aaaaaaaaaaaaaaaaaaaaaaaa" = some vidFix :=
  togglePublish_involutive stFix "aaaaaaaaaaaaaaaaaaaaaaaa" vidFix
    (by decide) rfl

/-! ### C10: update/delete on a well-formed identifier with no record -/

/-- C10: for a well-formed video identifier matching no stored video and
any present caller, `updateVideo` and `deleteVideo` both fail with the
ownership (`Forbidden`-shaped) error — the comparison of the absent
record's owner against the caller always fails — rather than `NotFound`,
and the store and asset store are returned unchanged with no external
effects. -/
theorem missingVideo_forbidden (σ : State) (vid c : String)
    (t d th : Option String) (up : String → Option UploadResult)
    (hvalid : isValidObjectId vid = true)
    (hnone : findVideo σ.videos vid = none) :
    updateVideo σ vid (some c) t d th up = (.error .Forbidden, σ, []) ∧
    deleteVideo σ vid (some c) = (.error .Forbidden, σ) := by
  constructor
  · simp [updateVideo, hvalid, hnone]
  · simp [deleteVideo, hvalid, hnone]

/-- Witness for C10 at a well-formed identifier absent from `stFix`. -/
theorem missingVideo_forbidden_witness :
    updateVideo stFix "ffffffffffffffffffffffff" (some "cccccccccccccccccccccccc")
        (some "T") none none uploadOk = (.error .Forbidden, stFix, []) ∧
    deleteVideo stFix "ffffffffffffffffffffffff" (some "cccccccccccccccccccccccc") =
      (.error .Forbidden, stFix) :=
  missingVideo_forbidden stFix "ffffffffffffffffffffffff" "cccccccccccccccccccccccc"
    (some "T") none none uploadOk (by decide) rfl

/-! ### C1: view and watch-history accounting of getVideoById -/

theorem getVideoById_step (σ : State) (vid uid : String) (u : User)
    (hvalid : isValidObjectId vid = true)
    (hu : findUser σ.users uid = some u) :
    getVideoById σ vid (some uid) =
      (.ok (aggVideoById σ vid (some uid), u.watchHistory ++ [vid]),
        { σ with
          videos := modifyVideo σ.videos vid (fun w => { w with views := w.views + 1 })
          users := updateUser σ.users u.id
              { u with watchHistory := u.watchHistory ++ [vid] } }) := by
  simp [getVideoById, hvalid, hu, jsArrayFalsy, Option.bind]

theorem getVideoById_step_facts (σ : State) (vid uid : String) (v : Video) (u : User)
    (hvalid : isValidObjectId vid = true)
    (hv : findVideo σ.videos vid = some v)
    (hu : findUser σ.users uid = some u) :
    (getVideoById σ vid (some uid)).1 =
        .ok (aggVideoById σ vid (some uid), u.watchHistory ++ [vid]) ∧
    findVideo (getVideoById σ vid (some uid)).2.videos vid =
        some { v with views := v.views + 1 } ∧
    findUser (getVideoById σ vid (some uid)).2.users uid =
        some { u with watchHistory := u.watchHistory ++ [vid] } := by
  rw [getVideoById_step σ vid uid u hvalid hu]
  refine ⟨rfl, ?_, ?_⟩
  · rw [findVideo_modifyVideo _ _ _ (by intro w; rfl), hv]
    rfl
  · have hid := findUser_id hu
    rw [hid]
    exact findUser_updateUser _ _ u _ hu rfl

theorem iterGet_invariant (vid uid : String)
    (hvalid : isValidObjectId vid = true) :
    ∀ (n : Nat) (σ : State) (v : Video) (u : User),
      findVideo σ.videos vid = some v → findUser σ.users uid = some u →
      findVideo (iterGetState vid (some uid) n σ).videos vid =
          some { v with views := v.views + n } ∧
      findUser (iterGetState vid (some uid) n σ).users uid =
          some { u with watchHistory := u.watchHistory ++ List.replicate n vid }
  | 0, σ, v, u, hv, hu => by
    constructor
    · simpa [iterGetState] using hv
    · simpa [iterGetState] using hu
  | n + 1, σ, v, u, hv, hu => by
    have hf := getVideoById_step_facts σ vid uid v u hvalid hv hu
    have ihr := iterGet_invariant vid uid hvalid n (getVideoById σ vid (some uid)).2
      _ _ hf.2.1 hf.2.2
    rw [iterGetState]
    constructor
    · rw [ihr.1]
      have harith : v.views + 1 + n = v.views + (n + 1) := by omega
      simp [harith]
    · rw [ihr.2]
      have happ : u.watchHistory ++ [vid] ++ List.replicate n vid =
          u.watchHistory ++ List.replicate (n + 1) vid := by
        rw [List.append_assoc]
        simp [List.replicate_succ]
      simp [happ]

/-- C1: a `getVideoById` call with a well-formed identifier of a stored
video and an existing calling user succeeds, increments that video's
view counter by exactly 1, and appends exactly the video's identifier
(one entry) to the caller's watch history; `n` sequential calls yield
view count `+n` and watch history extended by `n` duplicate entries of
the identifier. -/
theorem getVideoById_view_history_accounting (σ : State) (vid uid : String)
    (v : Video) (u : User)
    (hvalid : isValidObjectId vid = true)
    (hv : findVideo σ.videos vid = some v)
    (hu : findUser σ.users uid = some u) :
    ((getVideoById σ vid (some uid)).1 =
        .ok (aggVideoById σ vid (some uid), u.watchHistory ++ [vid]) ∧
      findVideo (getVideoById σ vid (some uid)).2.videos vid =
        some { v with views := v.views + 1 } ∧
      findUser (getVideoById σ vid (some uid)).2.users uid =
        some { u with watchHistory := u.watchHistory ++ [vid] }) ∧
    ∀ n : Nat,
      findVideo (iterGetState vid (some uid) n σ).videos vid =
        some { v with views := v.views + n } ∧
      findUser (iterGetState vid (some uid) n σ).users uid =
        some { u with watchHistory := u.watchHistory ++ List.replicate n vid } :=
  ⟨getVideoById_step_facts σ vid uid v u hvalid hv hu,
    fun n => iterGet_invariant vid uid hvalid n σ v u hv hu⟩

/-- Witness for C1: three sequential fetches of `vidFix` by the watcher
give views `+3` and three duplicate history entries. -/
theorem getVideoById_view_history_accounting_witness :
    (getVideoById stFix "aaaaaaaaaaaaaaaaaaaaaaaa"
        (some "dddddddddddddddddddddddd")).1 =
      .ok (aggVideoById stFix "aaaaaaaaaaaaaaaaaaaaaaaa"
          (some "dddddddddddddddddddddddd"),
        watcherFix.watchHistory ++ ["aaaaaaaaaaaaaaaaaaaaaaaa"]) ∧
    findVideo (iterGetState "aaaaaaaaaaaaaaaaaaaaaaaa"
        (some "dddddddddddddddddddddddd") 3 stFix).videos
      "aaaaaaaaaaaaaaaaaaaaaaaa" = some { vidFix with views := vidFix.views + 3 } ∧
    findUser (iterGetState "aaaaaaaaaaaaaaaaaaaaaaaa"
        (some "dddddddddddddddddddddddd") 3 stFix).users
      "dddddddddddddddddddddddd" =
      some { watcherFix with
             watchHistory := watcherFix.watchHistory ++
               List.replicate 3 "aaaaaaaaaaaaaaaaaaaaaaaa" } := by
  have h := getVideoById_view_history_accounting stFix "aaaaaaaaaaaaaaaaaaaaaaaa"
    "dddddddddddddddddddddddd" vidFix watcherFix (by decide) rfl rfl
  exact ⟨h.1.1, (h.2 3).1, (h.2 3).2⟩

/-! ### C2: default feed listing -/

theorem sortVideosDesc_sorted (key : Video → Nat) (l : List Video) :
    List.Sorted (fun a b => key b ≤ key a) (sortVideosDesc key l) := by
  haveI : IsTotal Video (fun a b => key b ≤ key a) := ⟨fun a b => Nat.le_total _ _⟩
  haveI : IsTrans Video (fun a b => key b ≤ key a) :=
    ⟨fun _ _ _ hab hbc => Nat.le_trans hbc hab⟩
  exact List.sorted_insertionSort _ _

theorem sortVideosDesc_mem {key : Video → Nat} {l : List Video} {v : Video}
    (h : v ∈ sortVideosDesc key l) : v ∈ l :=
  (List.perm_insertionSort _ l).mem_iff.mp h

/-- C2: `getAllVideos` with no query, no owner filter and no sort
parameters succeeds, every video of the returned page has its published
flag set, and the page is ordered by creation time descending. -/
theorem getAllVideos_default_feed (σ : State) (search : String → Video → Bool)
    (page limit : Nat) :
    ∃ docs, getAllVideos σ search none none none none page limit = .ok docs ∧
      (∀ v ∈ docs, v.isPublished = true) ∧
      List.Sorted (fun a b => b.createdAt ≤ a.createdAt) docs := by
  refine ⟨_, rfl, ?_, ?_⟩
  · intro v hv
    simp only [runFeedPipeline] at hv
    have h2 := List.take_subset _ _ hv
    have h3 := List.drop_subset _ _ h2
    have h4 := (List.mem_filter.mp h3).1
    have h5 := sortVideosDesc_mem h4
    exact (List.mem_filter.mp h5).2
  · simp only [runFeedPipeline]
    have hs := sortVideosDesc_sorted (fun v => v.createdAt)
      (σ.videos.filter (fun v => v.isPublished))
    have hs2 := hs.filter (fun v => (findUser σ.users v.owner).isSome)
    have hs3 : List.Sorted (fun a b => b.createdAt ≤ a.createdAt)
        (((σ.videos.filter (fun v => v.isPublished)
          |> sortVideosDesc (fun v => v.createdAt))
          |>.filter (fun v => (findUser σ.users v.owner).isSome))
          |>.drop ((page - 1) * limit)) :=
      hs2.sublist (List.drop_sublist _ _)
    exact hs3.sublist (List.take_sublist _ _)

/-- Witness for C2: on `stFix`, the default feed page is `[vidFix]`,
which is all-published and sorted by creation time descending. -/
theorem getAllVideos_default_feed_witness :
    (∀ v ∈ [vidFix], v.isPublished = true) ∧
    List.Sorted (fun a b : Video => b.createdAt ≤ a.createdAt) [vidFix] := by
  obtain ⟨docs, hdocs, hpub, hsorted⟩ :=
    getAllVideos_default_feed stFix (fun _ _ => true) 1 10
  have hval : getAllVideos stFix (fun _ _ => true) none none none none 1 10 =
      .ok [vidFix] := rfl
  rw [hval] at hdocs
  have he : [vidFix] = docs := Except.ok.inj hdocs
  rw [he]
  exact ⟨hpub, hsorted⟩

/-! ### C8: engagement booleans of the getVideoById aggregation -/

theorem mem_aggVideoById {σ : State} {vid : String} {caller : Option String}
    {av : AggVideo} (h : av ∈ aggVideoById σ vid caller) :
    ∃ v ∈ σ.videos, v.id = vid ∧ av = aggOfVideo σ caller v := by
  simp only [aggVideoById, List.mem_map, List.mem_filter] at h
  obtain ⟨v, ⟨hv, hid⟩, rfl⟩ := h
  exact ⟨v, hv, by simpa using hid, rfl⟩

/-- C8: in the documents produced by the `getVideoById` aggregation,
`isLiked` holds exactly when the caller's identifier is a member of the
video's liking-user set and `isSubscribed` exactly when it is a member
of the owner's subscriber set; with an absent caller identity both
booleans are `false` for every video. -/
theorem engagement_booleans (σ : State) (vid c : String) (av av0 : AggVideo)
    (h1 : av ∈ aggVideoById σ vid (some c))
    (h0 : av0 ∈ aggVideoById σ vid none) :
    (av.isLiked = true ↔ ∃ l ∈ σ.likes, l.video = av.id ∧ l.likedBy = c) ∧
    (∀ oi, av.ownerInfo = some oi →
      (oi.isSubscribed = true ↔
        ∃ s ∈ σ.subs, s.channel = oi.id ∧ s.subscriber = c)) ∧
    av0.isLiked = false ∧
    (∀ oi, av0.ownerInfo = some oi → oi.isSubscribed = false) := by
  obtain ⟨v, hv, hvid, rfl⟩ := mem_aggVideoById h1
  obtain ⟨w, hw, hwid, rfl⟩ := mem_aggVideoById h0
  refine ⟨?_, ?_, ?_, ?_⟩
  · simp only [aggOfVideo, List.any_eq_true, List.mem_filter]
    constructor
    · rintro ⟨l, ⟨hl, hlv⟩, hlc⟩
      exact ⟨l, hl, by simpa using hlv, by simpa using (by simpa using hlc : c = l.likedBy).symm⟩
    · rintro ⟨l, hl, hlv, hlc⟩
      exact ⟨l, ⟨hl, by simpa using hlv⟩, by simp [hlc]⟩
  · intro oi hoi
    simp only [aggOfVideo, Option.map_eq_some'] at hoi
    obtain ⟨u, hu, rfl⟩ := hoi
    simp only [List.any_eq_true, List.mem_filter]
    constructor
    · rintro ⟨s, ⟨hs, hsc⟩, hssub⟩
      exact ⟨s, hs, by simpa using hsc, (by simpa using hssub : c = s.subscriber).symm⟩
    · rintro ⟨s, hs, hsc, hssub⟩
      exact ⟨s, ⟨hs, by simpa using hsc⟩, by simp [hssub]⟩
  · simp only [aggOfVideo]
    rw [List.any_eq_false]
    intro l hl
    simp
  · intro oi hoi
    simp only [aggOfVideo, Option.map_eq_some'] at hoi
    obtain ⟨u, hu, rfl⟩ := hoi
    rw [List.any_eq_false]
    intro s hs
    simp

/-- Witness for C8: in `stFix` the watcher likes the video, so the
aggregation computed for the watcher reports `isLiked`, while the
aggregation computed without a caller identity reports `isLiked = false`. -/
theorem engagement_booleans_witness :
    (aggOfVideo stFix (some "dddddddddddddddddddddddd") vidFix).isLiked = true ∧
    (aggOfVideo stFix none vidFix).isLiked = false :=
  ⟨(engagement_booleans stFix "aaaaaaaaaaaaaaaaaaaaaaaa" "dddddddddddddddddddddddd"
        (aggOfVideo stFix (some "dddddddddddddddddddddddd") vidFix)
        (aggOfVideo stFix none vidFix) (by decide) (by decide)).1.mpr
      ⟨{ video := "aaaaaaaaaaaaaaaaaaaaaaaa", likedBy := "dddddddddddddddddddddddd" },
        by decide, rfl, rfl⟩,
    (engagement_booleans stFix "aaaaaaaaaaaaaaaaaaaaaaaa" "dddddddddddddddddddddddd"
        (aggOfVideo stFix (some "dddddddddddddddddddddddd") vidFix)
        (aggOfVideo stFix none vidFix) (by decide) (by decide)).2.2.1⟩

/-! ### C3: delete then fetch (unreachable NotFound branch) -/

theorem findVideo_removeVideo (vs : List Video) (id : String) :
    findVideo (removeVideo vs id) id = none := by
  simp only [findVideo, removeVideo]
  rw [List.find?_eq_none]
  intro x hx
  have h2 := (List.mem_filter.mp hx).2
  simp only [bne_iff_ne, ne_eq] at h2
  simpa using h2

theorem deleteVideo_owner_eq (σ : State) (vid : String) (v : Video)
    (hvalid : isValidObjectId vid = true)
    (hfind : findVideo σ.videos vid = some v) :
    deleteVideo σ vid (some v.owner) =
      (.ok v,
        { videos := removeVideo σ.videos vid
          users := σ.users.map (fun u =>
            { u with watchHistory := u.watchHistory.filter (fun h => h != vid) })
          likes := σ.likes
          subs := σ.subs
          assets := deleteAssetStore
              (deleteAssetStore σ.assets v.videoFile.public_id)
              v.thumbnail.public_id }) := by
  simp [deleteVideo, hvalid, hfind]

/-- The 404 branch of `getVideoById` is unreachable on every input: the
source tests `if(!video)` on the aggregation result ARRAY, which is
always truthy, so no call ever fails with `NotFound`. -/
theorem getVideoById_never_notFound (σ : State) (vid : String)
    (caller : Option String) :
    (getVideoById σ vid caller).1 ≠ Except.error ApiErr.NotFound := by
  simp only [getVideoById, jsArrayFalsy, Bool.false_eq_true, if_false]
  split
  · simp
  · split <;> simp

/-- C3 (code bug evaluated): deleting a stored video as its owner does
prune the identifier from every user's watch history and does remove
the record — but no subsequent `getVideoById` with that identifier can
ever fail with `NotFound`, because the source's `if(!video)` test on
the aggregation result array is always falsy (a JS array is truthy):
on a concrete store the post-delete fetch instead succeeds with an
empty result, re-appending the deleted identifier to the caller's
history. -/
theorem deleteVideo_then_fetch_not_notFound (σ : State) (vid : String) (v : Video)
    (hvalid : isValidObjectId vid = true)
    (hfind : findVideo σ.videos vid = some v) :
    (∀ u ∈ (deleteVideo σ vid (some v.owner)).2.users, vid ∉ u.watchHistory) ∧
    findVideo (deleteVideo σ vid (some v.owner)).2.videos vid = none ∧
    ∀ (σ2 : State) (caller : Option String),
      (getVideoById σ2 vid caller).1 ≠ Except.error ApiErr.NotFound := by
  rw [deleteVideo_owner_eq σ vid v hvalid hfind]
  refine ⟨?_, findVideo_removeVideo _ _,
    fun σ2 caller => getVideoById_never_notFound σ2 vid caller⟩
  intro u hu
  simp only [List.mem_map] at hu
  obtain ⟨w, hw, rfl⟩ := hu
  intro hmem
  have h2 := (List.mem_filter.mp hmem).2
  simp at h2

/-- Witness for C3: deleting `vidFix` as its owner empties both users'
histories of the identifier, removes the record, and the subsequent
fetch of the deleted identifier by the owner is not a `NotFound`
failure (it evaluates to a success with an empty aggregation result). -/
theorem deleteVideo_then_fetch_not_notFound_witness :
    (∀ u ∈ (deleteVideo stFix "aaaaaaaaaaaaaaaaaaaaaaaa"
        (some vidFix.owner)).2.users,
      "aaaaaaaaaaaaaaaaaaaaaaaa" ∉ u.watchHistory) ∧
    findVideo (deleteVideo stFix "aaaaaaaaaaaaaaaaaaaaaaaa"
        (some vidFix.owner)).2.videos "aaaaaaaaaaaaaaaaaaaaaaaa" = none ∧
    (getVideoById (deleteVideo stFix "aaaaaaaaaaaaaaaaaaaaaaaa"
          (some vidFix.owner)).2 "aaaaaaaaaaaaaaaaaaaaaaaa"
        (some "cccccccccccccccccccccccc")).1 ≠ Except.error ApiErr.NotFound := by
  have h := deleteVideo_then_fetch_not_notFound stFix "aaaaaaaaaaaaaaaaaaaaaaaa"
    vidFix (by decide) rfl
  exact ⟨h.1, h.2.1, h.2.2 _ _⟩

/-! ### C4: asset deletion ordering in updateVideo -/

/-- C4 (code bug evaluated): when a new thumbnail is supplied, the
source deletes the OLD thumbnail asset from the asset store BEFORE the
database write of the video record: in the emitted effect trace,
`deleteAsset` of the old identifier strictly precedes `dbWrite`, and
the old asset is gone from the asset store. -/
theorem updateVideo_old_asset_deleted_before_write :
    (updateVideo stFix "aaaaaaaaaaaaaaaaaaaaaaaa" (some "cccccccccccccccccccccccc")
        none none (some "new.png") uploadOk).2.2 =
      [Ev.uploadAsset "new.png", Ev.deleteAsset "th0",
        Ev.dbWrite "aaaaaaaaaaaaaaaaaaaaaaaa"] ∧
    "th0" ∉ (updateVideo stFix "aaaaaaaaaaaaaaaaaaaaaaaa"
        (some "cccccccccccccccccccccccc") none none (some "new.png")
        uploadOk).2.1.assets :=
  ⟨rfl, by decide⟩

/-! ### C5: partial update wipes the stored thumbnail URL -/

/-- C5 (code bug evaluated): a partial update by the owner that supplies
only a new title leaves title updated, description unchanged and the
thumbnail's asset identifier unchanged — but the stored thumbnail URL is
wiped to `none` (the source's `oldImageUrl` is never assigned in the
no-new-thumbnail branch, despite its comment "or old url will be set
again"), instead of keeping its previous value `some "https://cdn/thumb0"`. -/
theorem updateVideo_partial_wipes_thumbnail_url :
    findVideo (updateVideo stFix "aaaaaaaaaaaaaaaaaaaaaaaa"
        (some "cccccccccccccccccccccccc") (some "T1") none none
        uploadOk).2.1.videos "aaaaaaaaaaaaaaaaaaaaaaaa" =
      some { vidFix with
             title := "T1"
             thumbnail := { url := none, public_id := "th0" } } ∧
    vidFix.thumbnail.url = some "https://cdn/thumb0" := by
  exact ⟨rfl, rfl⟩

/-! ### C7: blank-field validation of publishAVideo -/

/-- C7 (code bug evaluated): with the title ABSENT (not blank), the
source's validation `[title, description].some(f => f?.trim() === "")`
does not fire, so `publishAVideo` proceeds to upload BOTH assets (they
appear in the trace and in the asset store) instead of failing with
`InvalidArgument` before any upload. -/
theorem publish_absent_title_still_uploads :
    (publishAVideo stFix (some "cccccccccccccccccccccccc") none (some "D")
        (some "v.mp4") (some "t.png") uploadOk "bbbbbbbbbbbbbbbbbbbbbbbb"
        200).2.2 =
      [Ev.uploadAsset "v.mp4", Ev.uploadAsset "t.png"] ∧
    (publishAVideo stFix (some "cccccccccccccccccccccccc") none (some "D")
        (some "v.mp4") (some "t.png") uploadOk "bbbbbbbbbbbbbbbbbbbbbbbb"
        200).2.1.assets = ["pid-t.png", "pid-v.mp4", "vf0", "th0"] ∧
    (publishAVideo stFix (some "cccccccccccccccccccccccc") none (some "D")
        (some "v.mp4") (some "t.png") uploadOk "bbbbbbbbbbbbbbbbbbbbbbbb"
        200).1 ≠ .error .InvalidArgument := by
  have h1 : (publishAVideo stFix (some "cccccccccccccccccccccccc") none (some "D")
      (some "v.mp4") (some "t.png") uploadOk "bbbbbbbbbbbbbbbbbbbbbbbb"
      200).1 = .error .Internal := rfl
  refine ⟨rfl, rfl, ?_⟩
  rw [h1]
  intro hcontra
  simp at hcontra

end VideoApp
